import Mathlib

/-!
Verification of `configure.py` from the `dvida_oxide` repository.

The script parses an optional `--arch` argument, spawns `cp -f
makefiles/Makefile_<arch> GNUmakefile` with `subprocess.Popen`, performs a
synchronous `os.chdir("./kernel/")`, and then spawns three more child
processes: `mkdir -p .cargo`, `cp -f arch_specific_configs/config.<arch>.toml
.cargo/config.toml`, and `cp -f arch_specific_configs/linker.<arch>.ld
linker.ld`.  None of the `Popen` children is ever waited on, so the parent
process neither observes their exit statuses nor imposes an order on their
completion.

The embedding models the filesystem as a set of directories plus an
association list of (path, contents) pairs, each spawned child process as a
`Cmd` whose effect on the filesystem follows the semantics of `cp -f` and
`mkdir -p`, and a run of the script as the list of commands it issues
(resolved against the working directory at spawn time) together with the
Python process's own exit code.  Because the children are never awaited,
their effects may land in any order: a complete run applies the issued
commands in an arbitrary permutation (`sched`).  The in-order special case
(`runSeq`) corresponds to the schedule in which every child happens to
finish before the next one starts.
-/

set_option autoImplicit false

namespace DvidaOxide

/-- A filesystem path, absolute from the invocation root, as a list of
components. -/
abbrev Path := List String

/-- A filesystem: the set of existing directories and an association list of
regular files with their byte contents (a later entry for the same path is
shadowed by an earlier one). -/
structure FS where
  dirs : List Path
  files : List (Path × String)
deriving DecidableEq, Repr

/-- First-match lookup in an association list of files. -/
def lookupFile : List (Path × String) → Path → Option String
  | [], _ => none
  | (q, c) :: rest, p => if p = q then some c else lookupFile rest p

/-- The contents of the regular file at `p`, if any. -/
def FS.getFile (fs : FS) (p : Path) : Option String :=
  lookupFile fs.files p

/-- Write contents `c` to path `p`, overwriting any previous contents. -/
def FS.setFile (fs : FS) (p : Path) (c : String) : FS :=
  { fs with files := (p, c) :: fs.files }

/-- Effect of a child process `cp -f src dst` on the filesystem.  The copy
succeeds, overwriting `dst`, when `src` is an existing regular file, `dst` is
not an existing directory and the parent directory of `dst` exists; in every
other case `cp` exits with an error leaving the filesystem unchanged.  (No
destination used by the script is ever a directory, so the copy-into-directory
form of `cp` does not arise.) -/
def FS.runCp (fs : FS) (src dst : Path) : FS :=
  match fs.getFile src with
  | none => fs
  | some c =>
    if dst ∈ fs.dirs then fs
    else if dst.dropLast ∈ fs.dirs then fs.setFile dst c
    else fs

/-- Effect of `mkdir -p`, creating the missing components of a path left to
right; a component that exists as a regular file stops the process. -/
def FS.mkdirpAux : FS → Path → List String → FS
  | fs, _, [] => fs
  | fs, built, d :: rest =>
    if fs.getFile (built ++ [d]) ≠ none then fs
    else if (built ++ [d]) ∈ fs.dirs then FS.mkdirpAux fs (built ++ [d]) rest
    else FS.mkdirpAux { fs with dirs := (built ++ [d]) :: fs.dirs } (built ++ [d]) rest

/-- Effect of a child process `mkdir -p p` on the filesystem. -/
def FS.runMkdirp (fs : FS) (p : Path) : FS :=
  FS.mkdirpAux fs [] p

/-- A child process spawned by the script, with its paths already resolved
against the working directory the parent had at spawn time. -/
inductive Cmd where
  | cp (src dst : Path)
  | mkdirp (d : Path)
deriving DecidableEq, Repr

/-- Apply the effect of one completed child process. -/
def step (fs : FS) : Cmd → FS
  | Cmd.cp s d => fs.runCp s d
  | Cmd.mkdirp p => fs.runMkdirp p

/-- Apply the effects of a list of child processes in the order given. -/
def run (fs : FS) (cmds : List Cmd) : FS :=
  cmds.foldl step fs

/-- Python renders the value of `args.arch` inside an f-string: the string
itself when `--arch` was given, and the literal `"None"` when it was omitted
(`argparse` defaults the option to `None`). -/
def pyArgStr : Option String → String
  | none => "None"
  | some s => s

/-- Source path `makefiles/Makefile_<arch>`, relative to the invocation root
(the working directory when the first copy is spawned). -/
def makefileSrc (a : String) : Path := ["makefiles", "Makefile_" ++ a]

/-- Source path `arch_specific_configs/config.<arch>.toml`, spawned after
`os.chdir("./kernel/")`, hence resolved under `kernel/`. -/
def configSrc (a : String) : Path :=
  ["kernel", "arch_specific_configs", "config." ++ a ++ ".toml"]

/-- Source path `arch_specific_configs/linker.<arch>.ld`, resolved under
`kernel/`. -/
def linkerSrc (a : String) : Path :=
  ["kernel", "arch_specific_configs", "linker." ++ a ++ ".ld"]

/-- Destination `GNUmakefile` at the invocation root. -/
def gnuMakefileDst : Path := ["GNUmakefile"]

/-- Destination `.cargo/config.toml`, resolved under `kernel/`. -/
def configDst : Path := ["kernel", ".cargo", "config.toml"]

/-- Destination `linker.ld`, resolved under `kernel/`. -/
def linkerDst : Path := ["kernel", "linker.ld"]

/-- Outcome of one invocation of the script: the child processes it spawned,
in spawn order, and the Python process's own exit code. -/
structure RunResult where
  issued : List Cmd
  exitCode : Nat
deriving DecidableEq, Repr

/-- One invocation of `configure.py` on initial filesystem `fs0`.

The first copy is spawned unconditionally.  `os.chdir("./kernel/")` then
raises an uncaught `FileNotFoundError` when `kernel/` is not an existing
directory, terminating the interpreter with exit code 1 before any further
child is spawned.  (The copy already in flight cannot create or remove the
`kernel` directory entry, so testing `fs0` at the `chdir` is exact.)
Otherwise the remaining three children are spawned and the interpreter exits
with code 0: the children's exit statuses are never collected, so they cannot
influence the script's own exit code. -/
def configure (arch : Option String) (fs0 : FS) : RunResult :=
  if ["kernel"] ∈ fs0.dirs then
    { issued := [Cmd.cp (makefileSrc (pyArgStr arch)) gnuMakefileDst,
                 Cmd.mkdirp ["kernel", ".cargo"],
                 Cmd.cp (configSrc (pyArgStr arch)) configDst,
                 Cmd.cp (linkerSrc (pyArgStr arch)) linkerDst],
      exitCode := 0 }
  else
    { issued := [Cmd.cp (makefileSrc (pyArgStr arch)) gnuMakefileDst],
      exitCode := 1 }

/-- The final filesystem of the run in which every spawned child completes
before the next one is spawned (in-order completion). -/
def runSeq (arch : Option String) (fs0 : FS) : FS :=
  run fs0 (configure arch fs0).issued

/-! ### Basic lemmas about the filesystem operations -/

@[simp]
theorem FS.getFile_setFile (fs : FS) (p q : Path) (c : String) :
    (fs.setFile p c).getFile q = if q = p then some c else fs.getFile q := rfl

@[simp]
theorem FS.dirs_setFile (fs : FS) (p : Path) (c : String) :
    (fs.setFile p c).dirs = fs.dirs := rfl

theorem FS.files_mkdirpAux (fs : FS) (built : Path) (rest : List String) :
    (FS.mkdirpAux fs built rest).files = fs.files := by
  induction rest generalizing fs built with
  | nil => rfl
  | cons d rest ih =>
    rw [FS.mkdirpAux]
    by_cases h1 : fs.getFile (built ++ [d]) ≠ none
    · simp [h1]
    · by_cases h2 : (built ++ [d]) ∈ fs.dirs
      · simp [h1, h2, ih]
      · simp [h1, h2, ih]

@[simp]
theorem FS.files_runMkdirp (fs : FS) (p : Path) :
    (fs.runMkdirp p).files = fs.files :=
  FS.files_mkdirpAux fs [] p

@[simp]
theorem FS.getFile_runMkdirp (fs : FS) (p q : Path) :
    (fs.runMkdirp p).getFile q = fs.getFile q := by
  unfold FS.getFile
  rw [FS.files_runMkdirp]

theorem FS.runCp_of_src_missing (fs : FS) (src dst : Path)
    (h : fs.getFile src = none) : fs.runCp src dst = fs := by
  unfold FS.runCp
  rw [h]

theorem FS.runCp_success (fs : FS) (src dst : Path) (c : String)
    (hsrc : fs.getFile src = some c) (hdst : dst ∉ fs.dirs)
    (hpar : dst.dropLast ∈ fs.dirs) :
    fs.runCp src dst = fs.setFile dst c := by
  unfold FS.runCp
  rw [hsrc]
  simp [hdst, hpar]

@[simp]
theorem step_cp (fs : FS) (s d : Path) : step fs (Cmd.cp s d) = fs.runCp s d := rfl

@[simp]
theorem step_mkdirp (fs : FS) (p : Path) : step fs (Cmd.mkdirp p) = fs.runMkdirp p := rfl

@[simp]
theorem run_nil (fs : FS) : run fs [] = fs := rfl

@[simp]
theorem run_cons (fs : FS) (c : Cmd) (l : List Cmd) :
    run fs (c :: l) = run (step fs c) l := rfl

/-- `mkdir -p .cargo`, spawned from `kernel/`, when neither `kernel` nor
`kernel/.cargo` is a regular file and `kernel` is already a directory: the
files are untouched and the directories gain exactly `kernel/.cargo`. -/
theorem FS.runMkdirp_cargo (fs : FS)
    (h1 : fs.getFile ["kernel"] = none)
    (h2 : fs.getFile ["kernel", ".cargo"] = none)
    (hk : ["kernel"] ∈ fs.dirs) :
    ∀ p : Path, p ∈ (fs.runMkdirp ["kernel", ".cargo"]).dirs ↔
      (p = ["kernel", ".cargo"] ∨ p ∈ fs.dirs) := by
  intro p
  unfold FS.runMkdirp FS.mkdirpAux
  simp only [List.nil_append, h1, ne_eq, not_true_eq_false, if_false,
    reduceIte, hk, if_true]
  rw [FS.mkdirpAux]
  by_cases hc : ["kernel", ".cargo"] ∈ fs.dirs
  · simp [h2, hc, FS.mkdirpAux]
    intro hp
    rw [hp]
    exact hc
  · simp [h2, hc, FS.mkdirpAux]

/-! ### The in-order run with all sources present -/

/-- Under in-order completion of the spawned children, with `kernel/` and the
three source artifacts present and none of the destinations a directory, the
run stages all three mappings; the sources, the directory structure and the
absence of conflicting entries are preserved, so a second run finds the same
preconditions again. -/
theorem runSeq_stages (arch : Option String) (fs0 : FS) (m c l : String)
    (hroot : ([] : Path) ∈ fs0.dirs)
    (hker : (["kernel"] : Path) ∈ fs0.dirs)
    (hkerf : fs0.getFile ["kernel"] = none)
    (hcargof : fs0.getFile ["kernel", ".cargo"] = none)
    (hm : fs0.getFile (makefileSrc (pyArgStr arch)) = some m)
    (hc : fs0.getFile (configSrc (pyArgStr arch)) = some c)
    (hl : fs0.getFile (linkerSrc (pyArgStr arch)) = some l)
    (hd1 : gnuMakefileDst ∉ fs0.dirs)
    (hd2 : configDst ∉ fs0.dirs)
    (hd3 : linkerDst ∉ fs0.dirs) :
    (runSeq arch fs0).getFile gnuMakefileDst = some m ∧
    (runSeq arch fs0).getFile configDst = some c ∧
    (runSeq arch fs0).getFile linkerDst = some l ∧
    (runSeq arch fs0).getFile (makefileSrc (pyArgStr arch)) = some m ∧
    (runSeq arch fs0).getFile (configSrc (pyArgStr arch)) = some c ∧
    (runSeq arch fs0).getFile (linkerSrc (pyArgStr arch)) = some l ∧
    ([] : Path) ∈ (runSeq arch fs0).dirs ∧
    (["kernel"] : Path) ∈ (runSeq arch fs0).dirs ∧
    (["kernel", ".cargo"] : Path) ∈ (runSeq arch fs0).dirs ∧
    (runSeq arch fs0).getFile ["kernel"] = none ∧
    (runSeq arch fs0).getFile ["kernel", ".cargo"] = none ∧
    gnuMakefileDst ∉ (runSeq arch fs0).dirs ∧
    configDst ∉ (runSeq arch fs0).dirs ∧
    linkerDst ∉ (runSeq arch fs0).dirs := by
  simp only [makefileSrc, configSrc, linkerSrc, gnuMakefileDst, configDst,
    linkerDst] at hm hc hl hd1 hd2 hd3 ⊢
  have hissued : (configure arch fs0).issued =
      [Cmd.cp ["makefiles", "Makefile_" ++ pyArgStr arch] ["GNUmakefile"],
       Cmd.mkdirp ["kernel", ".cargo"],
       Cmd.cp ["kernel", "arch_specific_configs",
         "config." ++ pyArgStr arch ++ ".toml"] ["kernel", ".cargo", "config.toml"],
       Cmd.cp ["kernel", "arch_specific_configs",
         "linker." ++ pyArgStr arch ++ ".ld"] ["kernel", "linker.ld"]] := by
    unfold configure
    rw [if_pos hker]
    rfl
  have h1 : fs0.runCp ["makefiles", "Makefile_" ++ pyArgStr arch] ["GNUmakefile"]
      = fs0.setFile ["GNUmakefile"] m :=
    FS.runCp_success _ _ _ _ hm hd1 hroot
  have h2 := FS.runMkdirp_cargo (fs0.setFile ["GNUmakefile"] m)
    (by simpa using hkerf) (by simpa using hcargof) hker
  have h3 : ((fs0.setFile ["GNUmakefile"] m).runMkdirp ["kernel", ".cargo"]).runCp
        ["kernel", "arch_specific_configs", "config." ++ pyArgStr arch ++ ".toml"]
        ["kernel", ".cargo", "config.toml"]
      = ((fs0.setFile ["GNUmakefile"] m).runMkdirp ["kernel", ".cargo"]).setFile
        ["kernel", ".cargo", "config.toml"] c := by
    apply FS.runCp_success
    · simpa using hc
    · simp [h2, hd2]
    · exact (h2 _).mpr (Or.inl rfl)
  have h4 : (((fs0.setFile ["GNUmakefile"] m).runMkdirp ["kernel", ".cargo"]).setFile
        ["kernel", ".cargo", "config.toml"] c).runCp
        ["kernel", "arch_specific_configs", "linker." ++ pyArgStr arch ++ ".ld"]
        ["kernel", "linker.ld"]
      = (((fs0.setFile ["GNUmakefile"] m).runMkdirp ["kernel", ".cargo"]).setFile
        ["kernel", ".cargo", "config.toml"] c).setFile ["kernel", "linker.ld"] l := by
    apply FS.runCp_success
    · simpa using hl
    · simp [h2, hd3]
    · exact (h2 _).mpr (Or.inr hker)
  have hfinal : runSeq arch fs0
      = ((((fs0.setFile ["GNUmakefile"] m).runMkdirp ["kernel", ".cargo"]).setFile
          ["kernel", ".cargo", "config.toml"] c).setFile ["kernel", "linker.ld"] l) := by
    unfold runSeq
    rw [hissued]
    simp only [run_cons, run_nil, step_cp, step_mkdirp]
    rw [h1, h3, h4]
  rw [hfinal]
  refine ⟨by simp, by simp, by simp, by simp [hm], by simp [hc], by simp [hl],
    by simp [h2, hroot], by simp [h2, hker], by simp [h2], by simp [hkerf],
    by simp [hcargof], by simp [h2, hd1], by simp [h2, hd2], by simp [h2, hd3]⟩

/-! ### Runs in which no copy finds its source -/

/-- If no `cp` in a batch of completed child processes finds its source file,
the batch leaves every regular file untouched (`mkdir -p` only adds
directories, and a failed `cp` changes nothing). -/
theorem run_files_eq_of_srcs_missing (l : List Cmd) :
    ∀ fs : FS, (∀ s d : Path, Cmd.cp s d ∈ l → fs.getFile s = none) →
      (run fs l).files = fs.files := by
  induction l with
  | nil => intro fs _; rfl
  | cons cmd rest ih =>
    intro fs h
    rw [run_cons]
    cases cmd with
    | cp s d =>
      rw [step_cp, FS.runCp_of_src_missing fs s d (h s d (List.mem_cons_self _ _))]
      exact ih fs fun s' d' hm => h s' d' (List.mem_cons_of_mem _ hm)
    | mkdirp p =>
      rw [step_mkdirp]
      have hrest : (run (fs.runMkdirp p) rest).files = (fs.runMkdirp p).files := by
        apply ih
        intro s' d' hm
        show (fs.runMkdirp p).getFile s' = none
        rw [FS.getFile_runMkdirp]
        exact h s' d' (List.mem_cons_of_mem _ hm)
      rw [hrest, FS.files_runMkdirp]

/-- Contents version of `run_files_eq_of_srcs_missing`. -/
theorem run_getFile_eq_of_srcs_missing (l : List Cmd) (fs : FS)
    (h : ∀ s d : Path, Cmd.cp s d ∈ l → fs.getFile s = none) (p : Path) :
    (run fs l).getFile p = fs.getFile p := by
  unfold FS.getFile
  rw [run_files_eq_of_srcs_missing l fs h]

/-! ### Concrete initial filesystems -/

/-- An invocation root holding `kernel/` and all three `x86_64` source
artifacts, with `kernel/.cargo/` not yet existing. -/
def fsFull : FS :=
  { dirs := [[], ["kernel"], ["makefiles"], ["kernel", "arch_specific_configs"]],
    files := [(["makefiles", "Makefile_x86_64"], "MK"),
              (["kernel", "arch_specific_configs", "config.x86_64.toml"], "CFG"),
              (["kernel", "arch_specific_configs", "linker.x86_64.ld"], "LD")] }

/-- The same layout with `riscv64` source artifacts. -/
def fsFullR : FS :=
  { dirs := [[], ["kernel"], ["makefiles"], ["kernel", "arch_specific_configs"]],
    files := [(["makefiles", "Makefile_riscv64"], "RMK"),
              (["kernel", "arch_specific_configs", "config.riscv64.toml"], "RCFG"),
              (["kernel", "arch_specific_configs", "linker.riscv64.ld"], "RLD")] }

/-- An invocation root with no source artifacts at all, but with all three
destination files already present with old contents. -/
def fsNoSrc : FS :=
  { dirs := [[], ["kernel"], ["makefiles"], ["kernel", "arch_specific_configs"],
             ["kernel", ".cargo"]],
    files := [(["GNUmakefile"], "OLD1"),
              (["kernel", ".cargo", "config.toml"], "OLD2"),
              (["kernel", "linker.ld"], "OLD3")] }

/-- An invocation root where only the Makefile source artifact is missing;
the config and linker sources exist and `GNUmakefile` holds old contents. -/
def fsNoMakefileSrc : FS :=
  { dirs := [[], ["kernel"], ["makefiles"], ["kernel", "arch_specific_configs"]],
    files := [(["GNUmakefile"], "OLDMK"),
              (["kernel", "arch_specific_configs", "config.x86_64.toml"], "CFG"),
              (["kernel", "arch_specific_configs", "linker.x86_64.ld"], "LD")] }

/-- An invocation root that happens to hold a `makefiles/Makefile_None`
artifact, matching the literal string Python substitutes for an omitted
`--arch`. -/
def fsNoneArch : FS :=
  { dirs := [[], ["kernel"], ["makefiles"]],
    files := [(["makefiles", "Makefile_None"], "NONEMK")] }

/-- An invocation root with no `kernel/` directory. -/
def fsNoKernel : FS := { dirs := [[]], files := [] }

/-! ### Claim C1 -/

/-- Claim C1 fails on the code as stated: with every `x86_64` source artifact
present and `kernel/.cargo/` not pre-existing, there is a run of the program
(a permutation of the spawned, never-awaited child processes in which the
config copy completes before `mkdir -p .cargo`) after which
`kernel/.cargo/config.toml` does not byte-equal its source: it does not exist
at all. -/
theorem c1_counterexample :
    fsFull.getFile (makefileSrc "x86_64") = some "MK" ∧
    fsFull.getFile (configSrc "x86_64") = some "CFG" ∧
    fsFull.getFile (linkerSrc "x86_64") = some "LD" ∧
    List.Perm
      [Cmd.cp (makefileSrc "x86_64") gnuMakefileDst,
       Cmd.cp (configSrc "x86_64") configDst,
       Cmd.mkdirp ["kernel", ".cargo"],
       Cmd.cp (linkerSrc "x86_64") linkerDst]
      ((configure (some "x86_64") fsFull).issued) ∧
    (run fsFull
      [Cmd.cp (makefileSrc "x86_64") gnuMakefileDst,
       Cmd.cp (configSrc "x86_64") configDst,
       Cmd.mkdirp ["kernel", ".cargo"],
       Cmd.cp (linkerSrc "x86_64") linkerDst]).getFile configDst = none := by
  decide

/-- Claim C1 (amended): for every arch identifier with existing source
artifacts (and an existing `kernel/` directory), if the spawned child
processes complete in the order they are issued, then after the run
`GNUmakefile` byte-equals `makefiles/Makefile_<arch>`,
`kernel/.cargo/config.toml` byte-equals
`kernel/arch_specific_configs/config.<arch>.toml`, and `kernel/linker.ld`
byte-equals `kernel/arch_specific_configs/linker.<arch>.ld`. -/
theorem c1_staged_inorder (arch : Option String) (fs0 : FS) (m c l : String)
    (hroot : ([] : Path) ∈ fs0.dirs)
    (hker : (["kernel"] : Path) ∈ fs0.dirs)
    (hkerf : fs0.getFile ["kernel"] = none)
    (hcargof : fs0.getFile ["kernel", ".cargo"] = none)
    (hm : fs0.getFile (makefileSrc (pyArgStr arch)) = some m)
    (hc : fs0.getFile (configSrc (pyArgStr arch)) = some c)
    (hl : fs0.getFile (linkerSrc (pyArgStr arch)) = some l)
    (hd1 : gnuMakefileDst ∉ fs0.dirs)
    (hd2 : configDst ∉ fs0.dirs)
    (hd3 : linkerDst ∉ fs0.dirs) :
    (runSeq arch fs0).getFile gnuMakefileDst
      = (runSeq arch fs0).getFile (makefileSrc (pyArgStr arch)) ∧
    (runSeq arch fs0).getFile configDst
      = (runSeq arch fs0).getFile (configSrc (pyArgStr arch)) ∧
    (runSeq arch fs0).getFile linkerDst
      = (runSeq arch fs0).getFile (linkerSrc (pyArgStr arch)) := by
  obtain ⟨e1, e2, e3, e4, e5, e6, -⟩ :=
    runSeq_stages arch fs0 m c l hroot hker hkerf hcargof hm hc hl hd1 hd2 hd3
  exact ⟨by rw [e1, e4], by rw [e2, e5], by rw [e3, e6]⟩

/-- Witness for `c1_staged_inorder` at `--arch x86_64` on `fsFull`. -/
theorem c1_staged_inorder_witness :
    (runSeq (some "x86_64") fsFull).getFile gnuMakefileDst
      = (runSeq (some "x86_64") fsFull).getFile (makefileSrc (pyArgStr (some "x86_64"))) :=
  (c1_staged_inorder (some "x86_64") fsFull "MK" "CFG" "LD" (by decide) (by decide)
    (by decide) (by decide) (by decide) (by decide) (by decide) (by decide)
    (by decide) (by decide)).1

/-! ### Claim C7 -/

/-- Claim C7 fails on the code as stated: starting from a state where
`kernel/.cargo/` does not exist but the `riscv64` sources do, there is a run
(the config copy completing before `mkdir -p .cargo`) after which
`kernel/.cargo/config.toml` does not hold the source contents. -/
theorem c7_counterexample :
    (["kernel", ".cargo"] : Path) ∉ fsFullR.dirs ∧
    fsFullR.getFile (configSrc "riscv64") = some "RCFG" ∧
    List.Perm
      [Cmd.cp (configSrc "riscv64") configDst,
       Cmd.cp (makefileSrc "riscv64") gnuMakefileDst,
       Cmd.mkdirp ["kernel", ".cargo"],
       Cmd.cp (linkerSrc "riscv64") linkerDst]
      ((configure (some "riscv64") fsFullR).issued) ∧
    (run fsFullR
      [Cmd.cp (configSrc "riscv64") configDst,
       Cmd.cp (makefileSrc "riscv64") gnuMakefileDst,
       Cmd.mkdirp ["kernel", ".cargo"],
       Cmd.cp (linkerSrc "riscv64") linkerDst]).getFile configDst = none := by
  decide

/-- Claim C7 (amended): starting from a state where `kernel/.cargo/` does not
exist but the sources for the given arch do, if the spawned child processes
complete in the order they are issued, then after the run `kernel/.cargo/`
exists and contains `config.toml` with the correct contents for that arch. -/
theorem c7_cargo_created_inorder (arch : Option String) (fs0 : FS) (m c l : String)
    (_hnocargo : (["kernel", ".cargo"] : Path) ∉ fs0.dirs)
    (hroot : ([] : Path) ∈ fs0.dirs)
    (hker : (["kernel"] : Path) ∈ fs0.dirs)
    (hkerf : fs0.getFile ["kernel"] = none)
    (hcargof : fs0.getFile ["kernel", ".cargo"] = none)
    (hm : fs0.getFile (makefileSrc (pyArgStr arch)) = some m)
    (hc : fs0.getFile (configSrc (pyArgStr arch)) = some c)
    (hl : fs0.getFile (linkerSrc (pyArgStr arch)) = some l)
    (hd1 : gnuMakefileDst ∉ fs0.dirs)
    (hd2 : configDst ∉ fs0.dirs)
    (hd3 : linkerDst ∉ fs0.dirs) :
    (["kernel", ".cargo"] : Path) ∈ (runSeq arch fs0).dirs ∧
    (runSeq arch fs0).getFile configDst = some c := by
  obtain ⟨-, e2, -, -, -, -, -, -, e9, -⟩ :=
    runSeq_stages arch fs0 m c l hroot hker hkerf hcargof hm hc hl hd1 hd2 hd3
  exact ⟨e9, e2⟩

/-- Witness for `c7_cargo_created_inorder` at `--arch riscv64` on `fsFullR`. -/
theorem c7_cargo_created_inorder_witness :
    (runSeq (some "riscv64") fsFullR).getFile configDst = some "RCFG" :=
  (c7_cargo_created_inorder (some "riscv64") fsFullR "RMK" "RCFG" "RLD" (by decide)
    (by decide) (by decide) (by decide) (by decide) (by decide) (by decide)
    (by decide) (by decide) (by decide) (by decide)).2

/-! ### Claim C8 -/

/-- Claim C8 fails on the code as stated: with all `x86_64` sources present
and `kernel/.cargo/` not pre-existing, a single run in which the config copy
completes before `mkdir -p .cargo` leaves `kernel/.cargo/config.toml`
nonexistent, while running the staging twice (children completing in spawn
order) leaves it holding the source contents, so the destination contents
after two runs differ from those after one run. -/
theorem c8_counterexample :
    List.Perm
      [Cmd.cp (makefileSrc "x86_64") gnuMakefileDst,
       Cmd.mkdirp ["kernel", ".cargo"],
       Cmd.cp (linkerSrc "x86_64") linkerDst,
       Cmd.cp (configSrc "x86_64") configDst]
      ((configure (some "x86_64") fsFull).issued) ∧
    (run fsFull
      [Cmd.cp (makefileSrc "x86_64") gnuMakefileDst,
       Cmd.cp (configSrc "x86_64") configDst,
       Cmd.mkdirp ["kernel", ".cargo"],
       Cmd.cp (linkerSrc "x86_64") linkerDst]).getFile configDst = none ∧
    (runSeq (some "x86_64") (runSeq (some "x86_64") fsFull)).getFile configDst
      = some "CFG" := by
  decide

/-- Claim C8 (amended): for every arch with existing source artifacts, if the
spawned child processes complete in the order they are issued in both runs,
running the staging twice in succession leaves every destination file with
contents identical to those produced by running it once. -/
theorem c8_idempotent_inorder (arch : Option String) (fs0 : FS) (m c l : String)
    (hroot : ([] : Path) ∈ fs0.dirs)
    (hker : (["kernel"] : Path) ∈ fs0.dirs)
    (hkerf : fs0.getFile ["kernel"] = none)
    (hcargof : fs0.getFile ["kernel", ".cargo"] = none)
    (hm : fs0.getFile (makefileSrc (pyArgStr arch)) = some m)
    (hc : fs0.getFile (configSrc (pyArgStr arch)) = some c)
    (hl : fs0.getFile (linkerSrc (pyArgStr arch)) = some l)
    (hd1 : gnuMakefileDst ∉ fs0.dirs)
    (hd2 : configDst ∉ fs0.dirs)
    (hd3 : linkerDst ∉ fs0.dirs) :
    (runSeq arch (runSeq arch fs0)).getFile gnuMakefileDst
      = (runSeq arch fs0).getFile gnuMakefileDst ∧
    (runSeq arch (runSeq arch fs0)).getFile configDst
      = (runSeq arch fs0).getFile configDst ∧
    (runSeq arch (runSeq arch fs0)).getFile linkerDst
      = (runSeq arch fs0).getFile linkerDst := by
  obtain ⟨e1, e2, e3, e4, e5, e6, e7, e8, e9, e10, e11, e12, e13, e14⟩ :=
    runSeq_stages arch fs0 m c l hroot hker hkerf hcargof hm hc hl hd1 hd2 hd3
  obtain ⟨f1, f2, f3, -⟩ :=
    runSeq_stages arch (runSeq arch fs0) m c l e7 e8 e10 e11 e4 e5 e6 e12 e13 e14
  exact ⟨by rw [f1, e1], by rw [f2, e2], by rw [f3, e3]⟩

/-- Witness for `c8_idempotent_inorder` at `--arch x86_64` on `fsFull`. -/
theorem c8_idempotent_inorder_witness :
    (runSeq (some "x86_64") (runSeq (some "x86_64") fsFull)).getFile configDst
      = (runSeq (some "x86_64") fsFull).getFile configDst :=
  (c8_idempotent_inorder (some "x86_64") fsFull "MK" "CFG" "LD" (by decide)
    (by decide) (by decide) (by decide) (by decide) (by decide) (by decide)
    (by decide) (by decide) (by decide)).2.1

/-! ### Claim C2 -/

/-- Claim C2, behavior of the code at the failing input `--arch
doesnotexist` on a tree where no `doesnotexist` source artifact exists: the
destination files are indeed left unchanged in every run (each `cp` child
fails before writing, whatever order the children complete in), but no
`NotFoundError` reaches the caller: the children's failures are discarded and
the program's own exit code is 0. -/
theorem c2_missing_sources_silent :
    (configure (some "doesnotexist") fsNoSrc).exitCode = 0 ∧
    ∀ sched : List Cmd,
      List.Perm sched (configure (some "doesnotexist") fsNoSrc).issued →
      (run fsNoSrc sched).getFile gnuMakefileDst = some "OLD1" ∧
      (run fsNoSrc sched).getFile configDst = some "OLD2" ∧
      (run fsNoSrc sched).getFile linkerDst = some "OLD3" := by
  have hissued : (configure (some "doesnotexist") fsNoSrc).issued =
      [Cmd.cp ["makefiles", "Makefile_doesnotexist"] ["GNUmakefile"],
       Cmd.mkdirp ["kernel", ".cargo"],
       Cmd.cp ["kernel", "arch_specific_configs", "config.doesnotexist.toml"]
         ["kernel", ".cargo", "config.toml"],
       Cmd.cp ["kernel", "arch_specific_configs", "linker.doesnotexist.ld"]
         ["kernel", "linker.ld"]] := by decide
  refine ⟨by decide, ?_⟩
  intro sched hperm
  have hmiss : ∀ s d : Path, Cmd.cp s d ∈ sched → fsNoSrc.getFile s = none := by
    intro s d hm
    have hmem := hperm.subset hm
    rw [hissued] at hmem
    simp only [List.mem_cons, List.not_mem_nil, or_false] at hmem
    rcases hmem with h | h | h | h
    · injection h with hs hd
      rw [hs]; decide
    · exact Cmd.noConfusion h
    · injection h with hs hd
      rw [hs]; decide
    · injection h with hs hd
      rw [hs]; decide
  have hpres := run_getFile_eq_of_srcs_missing sched fsNoSrc hmiss
  exact ⟨by rw [hpres]; decide, by rw [hpres]; decide, by rw [hpres]; decide⟩

/-- Witness for `c2_missing_sources_silent` at the in-order schedule. -/
theorem c2_missing_sources_silent_witness :
    (run fsNoSrc (configure (some "doesnotexist") fsNoSrc).issued).getFile
      gnuMakefileDst = some "OLD1" :=
  (c2_missing_sources_silent.2 (configure (some "doesnotexist") fsNoSrc).issued
    (List.Perm.refl _)).1

/-! ### Claim C3 -/

/-- Claim C3, behavior of the code at the failing input: with `--arch
doesnotexist` on a tree lacking the source artifacts, no mapping is staged
(`GNUmakefile` keeps its old contents because the Makefile source does not
exist), yet the program's exit code is 0, refuting "exit code 0 iff every
mapping staged"; no error kind is distinguishable because the child failures
are never collected. -/
theorem c3_exit_zero_despite_failure :
    fsNoSrc.getFile (makefileSrc "doesnotexist") = none ∧
    (run fsNoSrc (configure (some "doesnotexist") fsNoSrc).issued).getFile
      gnuMakefileDst = some "OLD1" ∧
    (configure (some "doesnotexist") fsNoSrc).exitCode = 0 := by
  decide

/-! ### Claim C4 -/

/-- Claim C4, behavior of the code: the child processes are spawned with
`subprocess.Popen` and never awaited, so their effects are not confirmed
before the next operation begins.  Concretely, two completion orders of the
very same spawned commands give different final filesystems: in spawn order
`kernel/.cargo/config.toml` is staged, while if the config copy completes
before `mkdir -p .cargo` it is not staged at all. -/
theorem c4_outcome_depends_on_child_order :
    List.Perm
      [Cmd.cp (configSrc "x86_64") configDst,
       Cmd.cp (makefileSrc "x86_64") gnuMakefileDst,
       Cmd.mkdirp ["kernel", ".cargo"],
       Cmd.cp (linkerSrc "x86_64") linkerDst]
      ((configure (some "x86_64") fsFull).issued) ∧
    (run fsFull
      [Cmd.cp (configSrc "x86_64") configDst,
       Cmd.cp (makefileSrc "x86_64") gnuMakefileDst,
       Cmd.mkdirp ["kernel", ".cargo"],
       Cmd.cp (linkerSrc "x86_64") linkerDst]).getFile configDst = none ∧
    (run fsFull ((configure (some "x86_64") fsFull).issued)).getFile configDst
      = some "CFG" := by
  decide

/-! ### Claim C5 -/

/-- Claim C5, behavior of the code: with the Makefile source artifact missing
but the other two present, the first staging operation fails, yet the run
does not abort: the remaining mappings are still spawned, the linker script
is staged, and the program exits 0 without identifying the failing mapping. -/
theorem c5_no_fail_fast :
    fsNoMakefileSrc.getFile (makefileSrc "x86_64") = none ∧
    (configure (some "x86_64") fsNoMakefileSrc).issued =
      [Cmd.cp (makefileSrc "x86_64") gnuMakefileDst,
       Cmd.mkdirp ["kernel", ".cargo"],
       Cmd.cp (configSrc "x86_64") configDst,
       Cmd.cp (linkerSrc "x86_64") linkerDst] ∧
    (run fsNoMakefileSrc
      (configure (some "x86_64") fsNoMakefileSrc).issued).getFile gnuMakefileDst
      = some "OLDMK" ∧
    (run fsNoMakefileSrc
      (configure (some "x86_64") fsNoMakefileSrc).issued).getFile linkerDst
      = some "LD" ∧
    (configure (some "x86_64") fsNoMakefileSrc).exitCode = 0 := by
  decide

/-! ### Claim C6 -/

/-- Claim C6, behavior of the code: when `--arch` is omitted `argparse`
yields `None` and the program performs no validation: it exits 0 and stages
`makefiles/Makefile_None` into `GNUmakefile` when such a file exists; with
`--arch ""` it likewise exits 0, spawning copies of `makefiles/Makefile_`,
`config..toml` and `linker..ld`.  No `ArgumentError` exists anywhere in the
program. -/
theorem c6_no_argument_validation :
    (configure none fsNoneArch).exitCode = 0 ∧
    (run fsNoneArch (configure none fsNoneArch).issued).getFile gnuMakefileDst
      = some "NONEMK" ∧
    (configure (some "") fsNoneArch).exitCode = 0 ∧
    (configure (some "") fsNoneArch).issued =
      [Cmd.cp ["makefiles", "Makefile_"] ["GNUmakefile"],
       Cmd.mkdirp ["kernel", ".cargo"],
       Cmd.cp ["kernel", "arch_specific_configs", "config..toml"]
         ["kernel", ".cargo", "config.toml"],
       Cmd.cp ["kernel", "arch_specific_configs", "linker..ld"]
         ["kernel", "linker.ld"]] := by
  decide

/-! ### Claim C9 -/

/-- Claim C9: if `kernel/` does not exist, `os.chdir` raises an uncaught
exception (the interpreter exits with code 1) after the `GNUmakefile` copy
has already been spawned; the `mkdir` and the remaining two copies are never
spawned, and when the Makefile source exists (and `GNUmakefile` is writable
at the root) the already-issued copy can complete, leaving the first mapping
staged. -/
theorem c9_missing_kernel_dir (arch : Option String) (fs0 : FS)
    (h : (["kernel"] : Path) ∉ fs0.dirs) :
    (configure arch fs0).exitCode = 1 ∧
    (configure arch fs0).issued
      = [Cmd.cp (makefileSrc (pyArgStr arch)) gnuMakefileDst] ∧
    ∀ m : String, fs0.getFile (makefileSrc (pyArgStr arch)) = some m →
      gnuMakefileDst ∉ fs0.dirs → ([] : Path) ∈ fs0.dirs →
      (run fs0 (configure arch fs0).issued).getFile gnuMakefileDst = some m := by
  have hissued : (configure arch fs0).issued
      = [Cmd.cp (makefileSrc (pyArgStr arch)) gnuMakefileDst] := by
    unfold configure
    rw [if_neg h]
  have hexit : (configure arch fs0).exitCode = 1 := by
    unfold configure
    rw [if_neg h]
  refine ⟨hexit, hissued, ?_⟩
  intro m hm hg hr
  rw [hissued, run_cons, run_nil, step_cp, FS.runCp_success fs0 _ _ m hm hg hr]
  simp

/-- Witness for `c9_missing_kernel_dir` on a tree without `kernel/`. -/
theorem c9_missing_kernel_dir_witness :
    (configure (some "x86_64") fsNoKernel).exitCode = 1 :=
  (c9_missing_kernel_dir (some "x86_64") fsNoKernel (by decide)).1

/-! ### Claim C10 -/

/-- Claim C10: when `--arch` is omitted, `args.arch` is `None`, the program
does not fail (exit code 0 whenever `kernel/` exists), and it constructs and
stages paths using the literal string "None" as the architecture
identifier. -/
theorem c10_none_arch_staged (fs0 : FS)
    (h : (["kernel"] : Path) ∈ fs0.dirs) :
    (configure none fs0).exitCode = 0 ∧
    (configure none fs0).issued =
      [Cmd.cp ["makefiles", "Makefile_None"] ["GNUmakefile"],
       Cmd.mkdirp ["kernel", ".cargo"],
       Cmd.cp ["kernel", "arch_specific_configs", "config.None.toml"]
         ["kernel", ".cargo", "config.toml"],
       Cmd.cp ["kernel", "arch_specific_configs", "linker.None.ld"]
         ["kernel", "linker.ld"]] := by
  unfold configure
  rw [if_pos h]
  exact ⟨rfl, by decide⟩

/-- Witness for `c10_none_arch_staged` on `fsNoneArch`. -/
theorem c10_none_arch_staged_witness :
    (configure none fsNoneArch).exitCode = 0 :=
  (c10_none_arch_staged fsNoneArch (by decide)).1

end DvidaOxide
